import Mathlib

/-!
Verification of the mayastor io-engine rebuild descriptor, range-containment
check and snapshot-destroy gRPC handler, as shallowly embedded Lean
definitions translated from the Rust sources
(`io-engine/src/rebuild/rebuild_descriptor.rs`, `io-engine/src/rebuild/mod.rs`,
`io-engine/src/grpc/v1/snapshot.rs`).

Machine integers (`u64`) are modelled as `Nat`; where overflow or underflow of
u64 arithmetic matters the bound `U64_MOD = 2^64` appears explicitly, and a
function that can panic on an arithmetic check (Rust debug semantics) returns
`Option`, `none` standing for the panic.
-/

namespace Mayastor

/-- The u64 modulus: a value `v` is a valid `u64` iff `v < U64_MOD`. -/
def U64_MOD : Nat := 2 ^ 64

/-- `std::ops::Range<u64>`: half-open `[start, end)`. -/
structure RustRange where
  start : Nat
  «end» : Nat
deriving DecidableEq, Repr

/-- `Within<u64>::within` from `rebuild/mod.rs`: `self` is contained in
`right`, both required non-empty. Translated from:
`self.start < self.end && right.start < right.end && self.start >= right.start
&& self.end <= right.end`. -/
def RustRange.within (self right : RustRange) : Bool :=
  decide (self.start < self.«end») && decide (right.start < right.«end») &&
    decide (self.start ≥ right.start) && decide (self.«end» ≤ right.«end»)

/-- `SEGMENT_TASKS` from `rebuild/mod.rs`: number of concurrent copy tasks per
rebuild job. -/
def SEGMENT_TASKS : Nat := 16

/-- An I/O handle produced by a block-device descriptor
(`core::BlockDeviceHandle`, external to the rebuild module; only its identity
matters here). -/
structure BlockDeviceHandle where
  id : Nat
deriving DecidableEq, Repr

/-- An error of the external block-device layer (the `source` carried by
`NoBdevHandle`). -/
structure CoreError where
  msg : String
deriving DecidableEq, Repr

/-- `core::BlockDeviceDescriptor`, external to the rebuild module: a
pre-opened handle to a named device. `get_io_handle_nonblock` is the outcome
of the n-th call to the device layer; indexing by the call number models that
each invocation queries the device layer afresh (the code stores no handle). -/
structure BlockDeviceDescriptor where
  device_name : String
  get_io_handle_nonblock : Nat → Except CoreError BlockDeviceHandle

/-- `RebuildError` from `rebuild/rebuild_error.rs`, restricted to the variant
the embedded code constructs. -/
inductive RebuildError where
  | NoBdevHandle (source : CoreError) (bdev : String)
deriving DecidableEq, Repr

/-- `RebuildMap` (from `rebuild/rebuild_map.rs`, not under the provided
sources). Modelled from the spec: a bitmap over fixed-size segments; bit `i`
true means segment `i` is clean (in sync); `is_blk_clean` maps a block to its
segment by integer division and reads the bit; `blk_clean` sets it.
Out-of-range reads saturate to clean (release semantics). -/
structure RebuildMap where
  segment_size_blks : Nat
  bits : List Bool
deriving DecidableEq, Repr

/-- Modelled from the spec: `is_blk_clean` returns the bit of segment
`blk / segment_size_blks`. -/
def RebuildMap.is_blk_clean (m : RebuildMap) (blk : Nat) : Bool :=
  m.bits.getD (blk / m.segment_size_blks) true

/-- Modelled from the spec: `blk_clean` sets the bit of segment
`blk / segment_size_blks`. -/
def RebuildMap.blk_clean (m : RebuildMap) (blk : Nat) : RebuildMap :=
  { m with bits := m.bits.set (blk / m.segment_size_blks) true }

/-- `DescriptorGuard<()>`: the nexus descriptor held to lock ranges; only its
identity matters here. -/
structure DescriptorGuard where
  id : Nat
deriving DecidableEq, Repr

/-- `RebuildDescriptor` from `rebuild/rebuild_descriptor.rs`. The
`Arc<parking_lot::Mutex<...>>` around the map is dropped in this sequential
model: the map is an `Option RebuildMap` field and mutation is explicit state
passing. `start_time` is an abstract timestamp. -/
structure RebuildDescriptor where
  block_size : Nat
  range : RustRange
  segment_size_blks : Nat
  src_uri : String
  dst_uri : String
  src_descriptor : BlockDeviceDescriptor
  dst_descriptor : BlockDeviceDescriptor
  nexus_descriptor : DescriptorGuard
  start_time : Nat
  rebuild_map : Option RebuildMap

/-- `RebuildDescriptor::get_segment_size_blks`, Rust debug semantics over u64:
`if (blk + segment_size_blks) > range.end { range.end - blk } else
{ segment_size_blks }`. `none` models an arithmetic panic: overflow of the
addition (sum ≥ 2^64) or underflow of the subtraction (`blk > range.end`). -/
def RebuildDescriptor.get_segment_size_blks (d : RebuildDescriptor)
    (blk : Nat) : Option Nat :=
  if blk + d.segment_size_blks < U64_MOD then
    if blk + d.segment_size_blks > d.range.«end» then
      if blk ≤ d.range.«end» then some (d.range.«end» - blk) else none
    else some d.segment_size_blks
  else none

/-- `RebuildDescriptor::io_handle`: maps a failure of
`get_io_handle_nonblock` (at call number `call`) to `NoBdevHandle` carrying
the device name. -/
def RebuildDescriptor.io_handle (descriptor : BlockDeviceDescriptor)
    (call : Nat) : Except RebuildError BlockDeviceHandle :=
  match descriptor.get_io_handle_nonblock call with
  | .ok h => .ok h
  | .error e => .error (.NoBdevHandle e descriptor.device_name)

/-- `RebuildDescriptor::src_io_handle`. -/
def RebuildDescriptor.src_io_handle (d : RebuildDescriptor) (call : Nat) :
    Except RebuildError BlockDeviceHandle :=
  RebuildDescriptor.io_handle d.src_descriptor call

/-- `RebuildDescriptor::dst_io_handle`. -/
def RebuildDescriptor.dst_io_handle (d : RebuildDescriptor) (call : Nat) :
    Except RebuildError BlockDeviceHandle :=
  RebuildDescriptor.io_handle d.dst_descriptor call

/-- `RebuildDescriptor::is_blk_sync`: `rebuild_map.lock().as_ref().map_or(
false, |m| m.is_blk_clean(blk))`. -/
def RebuildDescriptor.is_blk_sync (d : RebuildDescriptor) (blk : Nat) : Bool :=
  match d.rebuild_map with
  | none => false
  | some m => m.is_blk_clean blk

/-- `RebuildDescriptor::blk_synced`: `if let Some(map) =
rebuild_map.lock().as_mut() { map.blk_clean(blk); }`, as explicit state
passing. -/
def RebuildDescriptor.blk_synced (d : RebuildDescriptor) (blk : Nat) :
    RebuildDescriptor :=
  match d.rebuild_map with
  | none => d
  | some m => { d with rebuild_map := some (m.blk_clean blk) }

/-! Embedding of the `destroy_snapshot` gRPC handler body
(`grpc/v1/snapshot.rs`). -/

/-- `nix::errno::Errno`, restricted to the values the handler uses. -/
inductive Errno where
  | ENOMEDIUM
  | EMEDIUMTYPE
  | ENOENT
  | EIO
deriving DecidableEq, Repr

/-- `lvs::Error`, restricted to the variants the handler constructs; `Io`
stands for any error returned by `device.destroy()`. -/
inductive LvsError where
  | RepDestroy (source : Errno) (name : String) (msg : String)
  | Invalid (source : Errno) (msg : String)
  | Io (source : Errno) (msg : String)
deriving DecidableEq, Repr

/-- `destroy_snapshot_request::Pool`: the pool named in the request, by uuid
or by name. -/
inductive PoolRef where
  | PoolUuid (uuid : String)
  | PoolName (name : String)
deriving DecidableEq, Repr

/-- `DestroySnapshotRequest`: snapshot uuid plus optional pool reference. -/
structure DestroySnapshotRequest where
  snapshot_uuid : String
  pool : Option PoolRef
deriving DecidableEq, Repr

/-- A loaded lvolstore (`Lvs`): its name and uuid. -/
structure Lvs where
  name : String
  uuid : String
deriving DecidableEq, Repr

/-- A registered bdev as the handler sees it: driver string, uuid, and (for
lvol bdevs) the pool name and uuid of the hosting lvolstore. -/
structure Bdev where
  driver : String
  uuid : String
  pool_name : String
  pool_uuid : String
deriving DecidableEq, Repr

/-- The process-wide state the handler consults: the loaded pools, the
registered bdevs, and the outcome `device.destroy()` would have on each lvol
(indexed by its uuid). -/
structure SnapshotEnv where
  pools : List Lvs
  bdevs : List Bdev
  destroy_result : String → Except LvsError Unit

/-- `Lvs::lookup_by_uuid`. -/
def SnapshotEnv.lookup_by_uuid (env : SnapshotEnv) (uuid : String) :
    Option Lvs :=
  env.pools.find? (fun p => p.uuid == uuid)

/-- `Lvs::lookup` (by name). -/
def SnapshotEnv.lookup (env : SnapshotEnv) (name : String) : Option Lvs :=
  env.pools.find? (fun p => p.name == name)

/-- The first `match` of the handler: resolve the optional pool reference,
failing with `RepDestroy ENOMEDIUM` when the named pool is not loaded. -/
def lookup_pool (env : SnapshotEnv) (snapshot_uuid : String)
    (pool : Option PoolRef) : Except LvsError (Option Lvs) :=
  match pool with
  | some (.PoolUuid uuid) =>
    match env.lookup_by_uuid uuid with
    | some lvs => .ok (some lvs)
    | none => .error (.RepDestroy .ENOMEDIUM snapshot_uuid
        ("Pool uuid=" ++ uuid ++ " is not loaded"))
  | some (.PoolName name) =>
    match env.lookup name with
    | some lvs => .ok (some lvs)
    | none => .error (.RepDestroy .ENOMEDIUM snapshot_uuid
        ("Pool name=" ++ name ++ " is not loaded"))
  | none => .ok none

/-- The bdev scan of the handler: find the lvol bdev whose uuid is the
snapshot uuid. -/
def find_snapshot_bdev (env : SnapshotEnv) (snapshot_uuid : String) :
    Option Bdev :=
  env.bdevs.find? (fun b => b.driver == "lvol" && b.uuid == snapshot_uuid)

/-- The error message of the pool-mismatch branch (the Rust code formats the
debug representations of the lvolstore and the lvol). -/
def mismatch_msg (lvs : Lvs) (device : Bdev) : String :=
  "Specified " ++ lvs.name ++ "/" ++ lvs.uuid ++
    " does match the target " ++ device.uuid ++ "!"

/-- Body of `SnapshotService::destroy_snapshot` as submitted to the reactor.
The result pairs the handler's `Result` with a flag recording whether
`device.destroy()` was invoked; the outer `Option` is `none` when
`UntypedBdev::bdev_first().expect(...)` panics (no bdev registered at all). -/
def destroy_snapshot (env : SnapshotEnv) (args : DestroySnapshotRequest) :
    Option (Except LvsError Unit × Bool) :=
  match lookup_pool env args.snapshot_uuid args.pool with
  | .error e => some (.error e, false)
  | .ok lvs =>
    if env.bdevs.isEmpty then none
    else
      match find_snapshot_bdev env args.snapshot_uuid with
      | none => some (.error (.Invalid .ENOENT
          ("Snapshot " ++ args.snapshot_uuid ++ " not found")), false)
      | some device =>
        match lvs with
        | some l =>
          if l.name ≠ device.pool_name ∨ l.uuid ≠ device.pool_uuid then
            some (.error (.RepDestroy .EMEDIUMTYPE args.snapshot_uuid
              (mismatch_msg l device)), false)
          else
            some (env.destroy_result device.uuid, true)
        | none => some (env.destroy_result device.uuid, true)

/-! Theorems. -/

/-- A concrete block-device descriptor whose handle acquisition always
succeeds with handle 1. -/
def okSrcDescriptor : BlockDeviceDescriptor :=
  { device_name := "src-dev", get_io_handle_nonblock := fun _ => .ok ⟨1⟩ }

/-- A concrete block-device descriptor whose handle acquisition always fails
with a fixed core error. -/
def errDstDescriptor : BlockDeviceDescriptor :=
  { device_name := "dst-dev",
    get_io_handle_nonblock := fun _ => .error ⟨"enxio"⟩ }

/-- A concrete descriptor builder: range, segment size and map vary, the rest
is fixed. -/
def mkDescriptor (range : RustRange) (seg : Nat) (map : Option RebuildMap) :
    RebuildDescriptor :=
  { block_size := 512
    range := range
    segment_size_blks := seg
    src_uri := "bdev:///src"
    dst_uri := "bdev:///dst"
    src_descriptor := okSrcDescriptor
    dst_descriptor := errDstDescriptor
    nexus_descriptor := ⟨0⟩
    start_time := 0
    rebuild_map := map }

/-- C2: `within` accepts `(r, d)` iff `r` and `d` are non-empty and `r` is
contained in `d`; in particular an empty `r` is always rejected. -/
theorem within_accepts_iff_contained (r d : RustRange) :
    (r.within d = true ↔
      r.start < r.«end» ∧ d.start < d.«end» ∧
        r.start ≥ d.start ∧ r.«end» ≤ d.«end») ∧
    (r.start ≥ r.«end» → r.within d = false) := by
  constructor
  · simp [RustRange.within, and_assoc]
  · intro h
    simp only [RustRange.within, Bool.and_eq_false_iff, decide_eq_false_iff_not]
    exact Or.inl (Or.inl (Or.inl (by omega)))

/-- Witness for C2: the theorem applied at the concrete ranges `[4, 4)` and
`[0, 10)`, discharging the emptiness hypothesis. -/
theorem within_accepts_iff_contained_witness :
    RustRange.within ⟨4, 4⟩ ⟨0, 10⟩ = false :=
  (within_accepts_iff_contained ⟨4, 4⟩ ⟨0, 10⟩).2 (by decide)

/-- C7: the number of concurrent copy tasks per rebuild job is 16. -/
theorem segment_tasks_eq_16 : SEGMENT_TASKS = 16 := rfl

/-- C1 counterexample: a descriptor with range `[5, 10)` and
`segment_size_blks = 2^64 - 1` (a valid u64). At `blk = 5` we have
`start ≤ blk < end` and mathematically `blk + segment_size_blks > end`, so
the claim says `get_segment_size_blks` returns `end - blk = 5`; but the u64
addition `blk + segment_size_blks` overflows, so the code panics in debug
(wraps and returns `segment_size_blks` in release) — it does not return 5. -/
theorem get_segment_size_blks_overflow_cx :
    (mkDescriptor ⟨5, 10⟩ (2 ^ 64 - 1) none).range.start ≤ 5 ∧
    5 < (mkDescriptor ⟨5, 10⟩ (2 ^ 64 - 1) none).range.«end» ∧
    5 + (mkDescriptor ⟨5, 10⟩ (2 ^ 64 - 1) none).segment_size_blks >
      (mkDescriptor ⟨5, 10⟩ (2 ^ 64 - 1) none).range.«end» ∧
    (mkDescriptor ⟨5, 10⟩ (2 ^ 64 - 1) none).get_segment_size_blks 5 ≠
      some ((mkDescriptor ⟨5, 10⟩ (2 ^ 64 - 1) none).range.«end» - 5) := by
  refine ⟨by decide, by decide, by decide, ?_⟩
  simp [RebuildDescriptor.get_segment_size_blks, mkDescriptor, U64_MOD]

/-- C1 amended: for a descriptor whose `range.end` is a valid u64 and
`start ≤ blk < end`, `get_segment_size_blks blk` returns `segment_size_blks`
when `blk + segment_size_blks ≤ end`, and returns the short final length
`end - blk` when `blk + segment_size_blks > end`, provided that sum does not
overflow u64. -/
theorem get_segment_size_blks_spec (d : RebuildDescriptor) (blk : Nat)
    (hstart : d.range.start ≤ blk) (hlt : blk < d.range.«end»)
    (hend : d.range.«end» < U64_MOD) :
    (blk + d.segment_size_blks ≤ d.range.«end» →
      d.get_segment_size_blks blk = some d.segment_size_blks) ∧
    (blk + d.segment_size_blks > d.range.«end» →
      blk + d.segment_size_blks < U64_MOD →
      d.get_segment_size_blks blk = some (d.range.«end» - blk)) := by
  constructor
  · intro hle
    simp only [RebuildDescriptor.get_segment_size_blks]
    rw [if_pos (by omega), if_neg (by omega)]
  · intro hgt hov
    simp only [RebuildDescriptor.get_segment_size_blks]
    rw [if_pos hov, if_pos hgt, if_pos (by omega)]

/-- Witness for C1: the amended theorem at a descriptor with range `[0, 10)`
and segment size 4, evaluated at `blk = 8` (short final segment of length
2). -/
theorem get_segment_size_blks_spec_witness :
    (mkDescriptor ⟨0, 10⟩ 4 none).get_segment_size_blks 8 = some 2 :=
  (get_segment_size_blks_spec (mkDescriptor ⟨0, 10⟩ 4 none) 8
      (by decide) (by decide) (by decide)).2 (by decide) (by decide)

/-- C5 counterexample: a descriptor with range `[0, 1)` and
`segment_size_blks = 0` (a valid u64). At `blk = 0` we have
`start ≤ blk < end`, yet `get_segment_size_blks` returns 0, not a length of
at least 1. -/
theorem segment_size_at_least_one_cx :
    (mkDescriptor ⟨0, 1⟩ 0 none).range.start ≤ 0 ∧
    0 < (mkDescriptor ⟨0, 1⟩ 0 none).range.«end» ∧
    ¬ ∃ n, (mkDescriptor ⟨0, 1⟩ 0 none).get_segment_size_blks 0 = some n ∧
      1 ≤ n := by
  refine ⟨by decide, by decide, ?_⟩
  rintro ⟨n, hn, h1⟩
  have h0 : (mkDescriptor ⟨0, 1⟩ 0 none).get_segment_size_blks 0 = some 0 := by
    decide
  rw [h0] at hn
  have hn0 := Option.some.inj hn
  omega

/-- C5 amended: for a descriptor with `segment_size_blks ≥ 1`, valid-u64
`range.end`, no u64 overflow in `blk + segment_size_blks`, and
`start ≤ blk < end`, the segment length returned by `get_segment_size_blks`
is between 1 and `segment_size_blks`, so no copied (range-locked) segment
exceeds `segment_size_blks` blocks. -/
theorem segment_size_bounds (d : RebuildDescriptor) (blk : Nat)
    (hstart : d.range.start ≤ blk) (hlt : blk < d.range.«end»)
    (hend : d.range.«end» < U64_MOD) (hseg : 1 ≤ d.segment_size_blks)
    (hov : blk + d.segment_size_blks < U64_MOD) :
    ∃ n, d.get_segment_size_blks blk = some n ∧
      1 ≤ n ∧ n ≤ d.segment_size_blks := by
  simp only [RebuildDescriptor.get_segment_size_blks]
  rw [if_pos hov]
  by_cases hgt : blk + d.segment_size_blks > d.range.«end»
  · rw [if_pos hgt, if_pos (by omega)]
    exact ⟨d.range.«end» - blk, rfl, by omega, by omega⟩
  · rw [if_neg hgt]
    exact ⟨d.segment_size_blks, rfl, hseg, le_refl _⟩

/-- Witness for C5: the amended theorem at a descriptor with range `[0, 10)`
and segment size 4, evaluated at `blk = 0`. -/
theorem segment_size_bounds_witness :
    ∃ n, (mkDescriptor ⟨0, 10⟩ 4 none).get_segment_size_blks 0 = some n ∧
      1 ≤ n ∧ n ≤ (mkDescriptor ⟨0, 10⟩ 4 none).segment_size_blks :=
  segment_size_bounds (mkDescriptor ⟨0, 10⟩ 4 none) 0
    (by decide) (by decide) (by decide) (by decide) (by decide)

/-- C10: `get_segment_size_blks` is panic-free (returns a value) whenever
`blk ≤ range.end` and `blk + segment_size_blks` does not overflow u64; and
for every `blk > range.end` it panics (`none`): the short-segment branch is
then always taken and its u64 subtraction `range.end - blk` underflows (or
the addition already overflows). -/
theorem get_segment_size_blks_panic_freedom (d : RebuildDescriptor)
    (blk : Nat) :
    (blk ≤ d.range.«end» → blk + d.segment_size_blks < U64_MOD →
      (d.get_segment_size_blks blk).isSome = true) ∧
    (d.range.«end» < blk → d.get_segment_size_blks blk = none) := by
  constructor
  · intro hle hov
    simp only [RebuildDescriptor.get_segment_size_blks]
    rw [if_pos hov]
    by_cases hgt : blk + d.segment_size_blks > d.range.«end»
    · rw [if_pos hgt, if_pos hle]; rfl
    · rw [if_neg hgt]; rfl
  · intro hgt
    simp only [RebuildDescriptor.get_segment_size_blks]
    by_cases hov : blk + d.segment_size_blks < U64_MOD
    · rw [if_pos hov, if_pos (by omega), if_neg (by omega)]
    · rw [if_neg hov]

/-- Witness for C10: both parts at concrete inputs — a valid offset inside
the range `[0, 10)` with segment size 4 yields a value, and the offset 11
past the end panics. -/
theorem get_segment_size_blks_panic_freedom_witness :
    ((mkDescriptor ⟨0, 10⟩ 4 none).get_segment_size_blks 8).isSome = true ∧
    (mkDescriptor ⟨0, 10⟩ 4 none).get_segment_size_blks 11 = none :=
  ⟨(get_segment_size_blks_panic_freedom (mkDescriptor ⟨0, 10⟩ 4 none) 8).1
      (by decide) (by decide),
    (get_segment_size_blks_panic_freedom (mkDescriptor ⟨0, 10⟩ 4 none) 11).2
      (by decide)⟩

/-- C3: with no rebuild map supplied, `is_blk_sync` returns `false` for every
block — every block is treated as dirty and must be transferred. -/
theorem is_blk_sync_no_map (d : RebuildDescriptor) (blk : Nat)
    (h : d.rebuild_map = none) : d.is_blk_sync blk = false := by
  simp [RebuildDescriptor.is_blk_sync, h]

/-- Witness for C3: the theorem at a concrete descriptor with no map,
block 3. -/
theorem is_blk_sync_no_map_witness :
    (mkDescriptor ⟨0, 10⟩ 4 none).is_blk_sync 3 = false :=
  is_blk_sync_no_map (mkDescriptor ⟨0, 10⟩ 4 none) 3 rfl

/-- C4: `src_io_handle` / `dst_io_handle` return `ok` with a handle exactly
when the respective pre-opened descriptor's `get_io_handle_nonblock`
succeeds at that call, and on failure return `NoBdevHandle` carrying the
device name and the underlying cause. Freshness (no caching) is embedded in
the call index: each call's result is that call's query of the device
layer. -/
theorem src_dst_io_handle_spec (d : RebuildDescriptor) (call : Nat) :
    (∀ h, d.src_io_handle call = .ok h ↔
        d.src_descriptor.get_io_handle_nonblock call = .ok h) ∧
    (∀ e, d.src_descriptor.get_io_handle_nonblock call = .error e →
        d.src_io_handle call =
          .error (.NoBdevHandle e d.src_descriptor.device_name)) ∧
    (∀ h, d.dst_io_handle call = .ok h ↔
        d.dst_descriptor.get_io_handle_nonblock call = .ok h) ∧
    (∀ e, d.dst_descriptor.get_io_handle_nonblock call = .error e →
        d.dst_io_handle call =
          .error (.NoBdevHandle e d.dst_descriptor.device_name)) := by
  refine ⟨fun h => ?_, fun e he => ?_, fun h => ?_, fun e he => ?_⟩
  · cases hres : d.src_descriptor.get_io_handle_nonblock call <;>
      simp [RebuildDescriptor.src_io_handle, RebuildDescriptor.io_handle,
        hres]
  · simp [RebuildDescriptor.src_io_handle, RebuildDescriptor.io_handle, he]
  · cases hres : d.dst_descriptor.get_io_handle_nonblock call <;>
      simp [RebuildDescriptor.dst_io_handle, RebuildDescriptor.io_handle,
        hres]
  · simp [RebuildDescriptor.dst_io_handle, RebuildDescriptor.io_handle, he]

/-- Witness for C4: a descriptor whose source device always yields handle 1
and whose destination device always fails; the theorem gives the `ok` result
on the source side and the `NoBdevHandle` error on the destination side. -/
theorem src_dst_io_handle_spec_witness :
    (mkDescriptor ⟨0, 10⟩ 4 none).src_io_handle 0 = .ok ⟨1⟩ ∧
    (mkDescriptor ⟨0, 10⟩ 4 none).dst_io_handle 0 =
      .error (.NoBdevHandle ⟨"enxio"⟩ "dst-dev") :=
  ⟨((src_dst_io_handle_spec (mkDescriptor ⟨0, 10⟩ 4 none) 0).1 ⟨1⟩).2 rfl,
    (src_dst_io_handle_spec (mkDescriptor ⟨0, 10⟩ 4 none) 0).2.2.2
      ⟨"enxio"⟩ rfl⟩

/-- C6: `blk_synced` — the only descriptor operation that produces an updated
descriptor in this sequential model (the others are read-only functions of
the descriptor) — changes nothing but the contents of `rebuild_map`:
`block_size`, `range`, `segment_size_blks`, the URIs, the device
descriptors, the nexus descriptor and `start_time` are preserved. -/
theorem blk_synced_frame (d : RebuildDescriptor) (blk : Nat) :
    (d.blk_synced blk).block_size = d.block_size ∧
    (d.blk_synced blk).range = d.range ∧
    (d.blk_synced blk).segment_size_blks = d.segment_size_blks ∧
    (d.blk_synced blk).src_uri = d.src_uri ∧
    (d.blk_synced blk).dst_uri = d.dst_uri ∧
    (d.blk_synced blk).src_descriptor = d.src_descriptor ∧
    (d.blk_synced blk).dst_descriptor = d.dst_descriptor ∧
    (d.blk_synced blk).nexus_descriptor = d.nexus_descriptor ∧
    (d.blk_synced blk).start_time = d.start_time := by
  cases hm : d.rebuild_map <;>
    simp [RebuildDescriptor.blk_synced, hm]

/-- C8: with no rebuild map supplied, `blk_synced` is a no-op — the
descriptor (in particular `rebuild_map = none` and every other field) is
unchanged, and a subsequent `is_blk_sync` on the same block still returns
`false`. -/
theorem blk_synced_no_map_noop (d : RebuildDescriptor) (blk : Nat)
    (h : d.rebuild_map = none) :
    d.blk_synced blk = d ∧ (d.blk_synced blk).is_blk_sync blk = false := by
  have h1 : d.blk_synced blk = d := by
    simp [RebuildDescriptor.blk_synced, h]
  refine ⟨h1, ?_⟩
  rw [h1]
  simp [RebuildDescriptor.is_blk_sync, h]

/-- Witness for C8: the theorem at a concrete descriptor with no map,
block 7. -/
theorem blk_synced_no_map_noop_witness :
    (mkDescriptor ⟨0, 10⟩ 4 none).blk_synced 7 = mkDescriptor ⟨0, 10⟩ 4 none ∧
    ((mkDescriptor ⟨0, 10⟩ 4 none).blk_synced 7).is_blk_sync 7 = false :=
  blk_synced_no_map_noop (mkDescriptor ⟨0, 10⟩ 4 none) 7 rfl

/-- C9: in `destroy_snapshot`, when the request names a pool that is loaded,
the snapshot lvol is found, but its pool name or pool uuid differs from the
named pool, the handler returns `RepDestroy` with `EMEDIUMTYPE` and
`device.destroy()` is never invoked (the invoked flag is `false`), leaving
the snapshot unchanged. -/
theorem destroy_snapshot_pool_mismatch (env : SnapshotEnv)
    (args : DestroySnapshotRequest) (l : Lvs) (device : Bdev)
    (hlvs : lookup_pool env args.snapshot_uuid args.pool = .ok (some l))
    (hdev : find_snapshot_bdev env args.snapshot_uuid = some device)
    (hmis : l.name ≠ device.pool_name ∨ l.uuid ≠ device.pool_uuid) :
    destroy_snapshot env args =
      some (.error (.RepDestroy .EMEDIUMTYPE args.snapshot_uuid
        (mismatch_msg l device)), false) := by
  have hne : env.bdevs.isEmpty = false := by
    cases hb : env.bdevs with
    | nil =>
      rw [find_snapshot_bdev, hb] at hdev
      simp at hdev
    | cons a as => simp [hb]
  simp [destroy_snapshot, hlvs, hne, hdev, hmis]

/-- A concrete state for the pool-mismatch scenario: one loaded pool
`pool-a`, one lvol bdev `snap-1` that lives on a different pool `pool-b`. -/
def mismatchEnv : SnapshotEnv :=
  { pools := [⟨"pool-a", "puuid-a"⟩]
    bdevs := [⟨"lvol", "snap-1", "pool-b", "puuid-b"⟩]
    destroy_result := fun _ => .ok () }

/-- Witness for C9: destroying snapshot `snap-1` naming pool `pool-a` while
the snapshot lives on `pool-b` yields the `EMEDIUMTYPE` error without
invoking destroy. -/
theorem destroy_snapshot_pool_mismatch_witness :
    destroy_snapshot mismatchEnv ⟨"snap-1", some (.PoolName "pool-a")⟩ =
      some (.error (.RepDestroy .EMEDIUMTYPE "snap-1"
        (mismatch_msg ⟨"pool-a", "puuid-a"⟩
          ⟨"lvol", "snap-1", "pool-b", "puuid-b"⟩)), false) :=
  destroy_snapshot_pool_mismatch mismatchEnv
    ⟨"snap-1", some (.PoolName "pool-a")⟩ ⟨"pool-a", "puuid-a"⟩
    ⟨"lvol", "snap-1", "pool-b", "puuid-b"⟩ rfl rfl (by decide)

end Mayastor
